import Mathlib

/-
  Verification of the provider-forwarding gateway (COD-LLMs-2).

  Shallow embedding of the request-normalisation, payload-encoding, retry,
  stream-relay and citation-decoding logic of the source handlers:
    - src/api/proxy.js            (Fireworks buffered handler + OpenAI streaming handler)
    - src/api/streaming.js        (Fireworks streaming handler)
    - src/netlify/functions /api-proxy.js  (Groq buffered handler with retry loop)
    - src/unnamed/part_003        (second Groq buffered handler with retry loop)
    - src/unnamed/part_000, part_001       (Perplexity handlers with citation decoding)

  Optional request fields are modelled as Option values: none stands for a
  field that is absent (JavaScript undefined) or null, which the handlers
  treat identically (both are stripped from outbound payloads).  JavaScript
  truthiness of the `x || d` idiom is modelled explicitly: 0, the empty
  string, undefined and null select the default.
-/

namespace Gateway

/-- A chat message: role and content, forwarded verbatim by every handler. -/
structure Msg where
  role : String
  content : String
deriving DecidableEq, Repr

/-- JavaScript `x || d` on an optional integer field: undefined, null and 0
are falsy and select the default. -/
def jsOrInt (x : Option Int) (d : Int) : Int :=
  match x with
  | none => d
  | some v => if v = 0 then d else v

/-- JavaScript `x || d` on an optional rational (number) field. -/
def jsOrRat (x : Option ℚ) (d : ℚ) : ℚ :=
  match x with
  | none => d
  | some v => if v = 0 then d else v

/-- JavaScript `x || d` on an optional string field: the empty string is falsy. -/
def jsOrStr (x : Option String) (d : String) : String :=
  match x with
  | none => d
  | some v => if v = "" then d else v

/-! ## Fireworks handlers (src/api/proxy.js first handler, src/api/streaming.js)

Both read the same fields from the parsed request body and build
`cleanedParams`; null/undefined entries are deleted before dispatch, which
the Option-typed payload fields capture. -/

/-- The request-body fields read by the two Fireworks handlers. -/
structure FwBody where
  model : Option String
  messages : Option (List Msg)
  max_tokens : Option Int
  temperature : Option ℚ
  top_p : Option ℚ
  stream : Option Bool
deriving DecidableEq, Repr

/-- The outbound `cleanedParams` payload of the Fireworks handlers after the
delete-undefined/null pass: `max_tokens` and `stream` are always present. -/
structure FwPayload where
  model : Option String
  messages : Option (List Msg)
  max_tokens : Int
  temperature : Option ℚ
  top_p : Option ℚ
  stream : Bool
deriving DecidableEq, Repr

/-- `validatedMaxTokens` of proxy.js / streaming.js:
`Math.min(Math.max(1, requestBody.max_tokens || 4096), cap)`. -/
def validatedMaxTokens (mt : Option Int) (cap : Int) : Int :=
  min (max 1 (jsOrInt mt 4096)) cap

/-- `cleanedParams` of the buffered Fireworks handler (src/api/proxy.js,
lines 77-99): cap 8192, `stream` forced to false. -/
def fireworksCleanedParams (b : FwBody) : FwPayload :=
  { model := b.model
    messages := b.messages
    max_tokens := validatedMaxTokens b.max_tokens 8192
    temperature := b.temperature
    top_p := b.top_p
    stream := false }

/-- `cleanedParams` of the streaming Fireworks handler (src/api/streaming.js,
lines 89-111): cap 8192, `stream` forced to true. -/
def streamingCleanedParams (b : FwBody) : FwPayload :=
  { model := b.model
    messages := b.messages
    max_tokens := validatedMaxTokens b.max_tokens 8192
    temperature := b.temperature
    top_p := b.top_p
    stream := true }

/-! ## OpenAI streaming handler (src/api/proxy.js second handler) -/

/-- The request-body fields read by the OpenAI streaming handler. -/
structure OaBody where
  messages : Option (List Msg)
  max_tokens : Option Int
  temperature : Option ℚ
  top_p : Option ℚ
  presence_penalty : Option ℚ
  frequency_penalty : Option ℚ
  stream : Option Bool
deriving DecidableEq, Repr

/-- The `openaiPayload` shape (src/api/proxy.js lines 293-302): model pinned,
all numeric fields defaulted through `||`, `stream` forced to true. -/
structure OaPayload where
  model : String
  messages : Option (List Msg)
  max_tokens : Int
  temperature : ℚ
  top_p : ℚ
  stream : Bool
  presence_penalty : ℚ
  frequency_penalty : ℚ
deriving DecidableEq, Repr

/-- `openaiPayload` of src/api/proxy.js lines 285-302. -/
def openaiPayload (b : OaBody) : OaPayload :=
  { model := "gpt-4.1"
    messages := b.messages
    max_tokens := validatedMaxTokens b.max_tokens 4096
    temperature := jsOrRat b.temperature (7/10)
    top_p := jsOrRat b.top_p 1
    stream := true
    presence_penalty := jsOrRat b.presence_penalty 0
    frequency_penalty := jsOrRat b.frequency_penalty 0 }

/-! ## Second Groq buffered handler (src/unnamed/part_003) -/

/-- The request-body fields read by the part_003 handler. -/
structure DsBody where
  model : Option String
  messages : Option (List Msg)
  max_tokens : Option Int
  temperature : Option ℚ
  top_p : Option ℚ
  n : Option Int
  stream : Option Bool
  stop : Option String
  presence_penalty : Option ℚ
  frequency_penalty : Option ℚ
deriving DecidableEq, Repr

/-- The outbound `params` payload of part_003 after the delete-null/undefined
pass: `model`, `max_tokens` and `temperature` are always present. -/
structure DsPayload where
  model : String
  messages : Option (List Msg)
  max_tokens : Int
  temperature : ℚ
  top_p : Option ℚ
  n : Option Int
  stream : Option Bool
  stop : Option String
  presence_penalty : Option ℚ
  frequency_penalty : Option ℚ
deriving DecidableEq, Repr

/-- `params` of src/unnamed/part_003 lines 69-85: model defaulted through
`||`, `max_tokens := Math.min(requestBody.max_tokens || 8192, 32000)`,
`temperature` defaulted through `|| 0.7`, every other field passed through
(and dropped when null/undefined); the client `stream` flag is forwarded. -/
def dsParams (b : DsBody) : DsPayload :=
  { model := jsOrStr b.model "deepseek-r1-distill-qwen-32b"
    messages := b.messages
    max_tokens := min (jsOrInt b.max_tokens 8192) 32000
    temperature := jsOrRat b.temperature (7/10)
    top_p := b.top_p
    n := b.n
    stream := b.stream
    stop := b.stop
    presence_penalty := b.presence_penalty
    frequency_penalty := b.frequency_penalty }

/-! ## Groq netlify buffered handler (src/netlify/functions /api-proxy.js) -/

/-- The interface model names of the Groq netlify handler (lines 61-67). -/
def INTERFACE_MODELS : List String :=
  ["qwen-2.5-coder-32b", "llama-3.3-70b-versatile", "mixtral-8x7b-32768",
   "qwen-qwq-32b", "llama-3.2-90b-vision-preview"]

/-- `MODEL_MAP` of the Groq netlify handler (lines 70-76). -/
def MODEL_MAP : String → Option String := fun m =>
  if m = "qwen-2.5-coder-32b" then some "llama-3-70b-chat"
  else if m = "llama-3.3-70b-versatile" then some "llama-3-70b-chat"
  else if m = "mixtral-8x7b-32768" then some "mixtral-8x7b-32768"
  else if m = "qwen-qwq-32b" then some "llama-3-70b-chat"
  else if m = "llama-3.2-90b-vision-preview" then some "llama-3-70b-chat"
  else none

/-- The model-substitution step (lines 79-82):
`if (INTERFACE_MODELS.includes(m) && MODEL_MAP[m]) m = MODEL_MAP[m]` —
the looked-up value must be truthy (a non-empty string). -/
def groqMappedModel (m : String) : String :=
  if INTERFACE_MODELS.contains m then
    match MODEL_MAP m with
    | some v => if v = "" then m else v
    | none => m
  else m

/-- The `max_tokens` rewrite of the Groq netlify handler (lines 85-94):
first `if (mt && mt > 32000) mt = 32000`, then `if (!mt) mt = 4096`.
There is no lower clamp: negative values pass through unchanged. -/
def groqMaxTokens (mt : Option Int) : Int :=
  match mt with
  | none => 4096
  | some v =>
    if v ≠ 0 ∧ v > 32000 then 32000
    else if v = 0 then 4096
    else v

/-- The request-body fields of the Groq netlify handler that the claims
concern; the handler forwards the parsed body wholesale after mutating
`model` and `max_tokens` in place. -/
structure GroqBody where
  model : Option String
  messages : Option (List Msg)
  max_tokens : Option Int
  temperature : Option ℚ
  top_p : Option ℚ
  stream : Option Bool
deriving DecidableEq, Repr

/-- The outbound payload of the Groq netlify handler: the request body with
`model` substituted and `max_tokens` rewritten; all other fields, including
the client `stream` flag, forwarded untouched. -/
structure GroqPayload where
  model : Option String
  messages : Option (List Msg)
  max_tokens : Int
  temperature : Option ℚ
  top_p : Option ℚ
  stream : Option Bool
deriving DecidableEq, Repr

/-- The payload sent upstream by the Groq netlify handler (lines 79-124). -/
def groqNetlifyPayload (b : GroqBody) : GroqPayload :=
  { model := b.model.map groqMappedModel
    messages := b.messages
    max_tokens := groqMaxTokens b.max_tokens
    temperature := b.temperature
    top_p := b.top_p
    stream := b.stream }

/-! ## Handler decisions: what each handler does with a parsed body

Each decision function models the control flow of a POST request between the
API-key check and the first outbound fetch.  `hasKey = false` models a
missing provider API key; `body = none` models a JSON parse failure of the
request body.  None of the handlers inspects `messages` before dispatch. -/

/-- Outcome of a handler up to its first outbound call. -/
inductive Decision (π : Type) where
  | configMissing : Decision π
  | invalidJson : Decision π
  | outboundCall : π → Decision π
deriving DecidableEq, Repr

/-- Control flow of the buffered Fireworks handler (src/api/proxy.js lines
31-119): key check, JSON parse, then the fetch with `cleanedParams`. -/
def fireworksDecision (hasKey : Bool) (body : Option FwBody) : Decision FwPayload :=
  if ¬ hasKey then .configMissing
  else
    match body with
    | none => .invalidJson
    | some b => .outboundCall (fireworksCleanedParams b)

/-- Control flow of the streaming Fireworks handler (src/api/streaming.js
lines 34-138). -/
def streamingDecision (hasKey : Bool) (body : Option FwBody) : Decision FwPayload :=
  if ¬ hasKey then .configMissing
  else
    match body with
    | none => .invalidJson
    | some b => .outboundCall (streamingCleanedParams b)

/-- Control flow of the OpenAI streaming handler (src/api/proxy.js lines
232-325). -/
def openaiDecision (hasKey : Bool) (body : Option OaBody) : Decision OaPayload :=
  if ¬ hasKey then .configMissing
  else
    match body with
    | none => .invalidJson
    | some b => .outboundCall (openaiPayload b)

/-- Control flow of the part_003 handler (lines 40-104) up to its first
outbound fetch. -/
def dsDecision (hasKey : Bool) (body : Option DsBody) : Decision DsPayload :=
  if ¬ hasKey then .configMissing
  else
    match body with
    | none => .invalidJson
    | some b => .outboundCall (dsParams b)

/-- Control flow of the Groq netlify handler (lines 34-126) up to its first
outbound fetch.  Note: its `JSON.parse` failure is caught by the outer
catch, not by a dedicated 400 branch. -/
def groqNetlifyDecision (hasKey : Bool) (body : Option GroqBody) : Decision GroqPayload :=
  if ¬ hasKey then .configMissing
  else
    match body with
    | none => .invalidJson
    | some b => .outboundCall (groqNetlifyPayload b)

/-! ## Retry loops

One upstream attempt yields a status with a raw body, an elapsed deadline
(the AbortController firing, which surfaces to the handler as a rejected
fetch) or another transport failure.  The outcome of attempt number `att`
(0-based) is `f att`. -/

/-- Outcome of one outbound fetch attempt. -/
inductive Up where
  | status : Int → String → Up
  | timeout : Up
  | transportFail : Up
deriving DecidableEq, Repr

/-- Result of the Groq netlify retry loop (lines 100-225): a 200 envelope
with the upstream body, an error envelope with the upstream status passed
through, or an exception reaching the outer catch (500).  The Nat is the
number of fetch attempts performed. -/
inductive GroqRes where
  | ok : String → Nat → GroqRes
  | errEnvelope : Int → Nat → GroqRes
  | caught : Nat → GroqRes
deriving DecidableEq, Repr

/-- Attempts performed by a Groq netlify loop run. -/
def GroqRes.attempts : GroqRes → Nat
  | .ok _ n => n
  | .errEnvelope _ n => n
  | .caught n => n

/-- HTTP status of the envelope the Groq netlify handler returns for a loop
result: success → 200, upstream error → its status, exception → 500. -/
def GroqRes.statusOf : GroqRes → Int
  | .ok _ _ => 200
  | .errEnvelope c _ => c
  | .caught _ => 500

/-- Record one backoff sleep of `d` ms in front of the sleeps of the rest
of a loop run. -/
def withDelay (d : Nat) (p : GroqRes × List Nat) : GroqRes × List Nat :=
  (p.1, d :: p.2)

/-- The `while (retries > 0)` loop of the Groq netlify handler (lines
100-148) together with the post-loop response handling (lines 150-225).
Arguments: outcome source, remaining `retries`, attempts made so far, the
`response` variable (status and body of the last received response, if
any).  A 502/504 response is stored and retried after a sleep of
`(3 - retries) * 3000` ms (computed after the decrement); any other
response breaks the loop; a rejected fetch decrements and rethrows when
`retries` reaches 0.  The returned list records the sleeps, in order. -/
def groqLoop (f : Nat → Up) : Nat → Nat → Option (Int × String) → GroqRes × List Nat
  | 0, att, last =>
    match last with
    | none => (.caught att, [])
    | some (c, body) =>
      if 200 ≤ c ∧ c < 300 then (.ok body att, []) else (.errEnvelope c att, [])
  | r + 1, att, last =>
    match f att with
    | .status c body =>
      if c = 502 ∨ c = 504 then
        withDelay ((3 - r) * 3000) (groqLoop f r (att + 1) (some (c, body)))
      else if 200 ≤ c ∧ c < 300 then (.ok body (att + 1), [])
      else (.errEnvelope c (att + 1), [])
    | .timeout =>
      if r = 0 then (.caught (att + 1), [])
      else withDelay ((3 - r) * 3000) (groqLoop f r (att + 1) last)
    | .transportFail =>
      if r = 0 then (.caught (att + 1), [])
      else withDelay ((3 - r) * 3000) (groqLoop f r (att + 1) last)

/-- A full run of the Groq netlify executor: `retries = 3`, no response yet. -/
def groqRun (f : Nat → Up) : GroqRes × List Nat :=
  groqLoop f 3 0 none

/-- Result of the part_003 retry loop: a 200 envelope with the upstream
body, the dedicated 401/404 envelopes, or the post-loop 500 "Request
failed" envelope.  The Nat is the number of fetch attempts performed. -/
inductive DsRes where
  | ok : String → Nat → DsRes
  | auth401 : Nat → DsRes
  | notFound404 : Nat → DsRes
  | failed500 : Nat → DsRes
deriving DecidableEq, Repr

/-- Attempts performed by a part_003 loop run. -/
def DsRes.attempts : DsRes → Nat
  | .ok _ n => n
  | .auth401 n => n
  | .notFound404 n => n
  | .failed500 n => n

/-- HTTP status of the envelope part_003 returns for a loop result. -/
def DsRes.statusOf : DsRes → Int
  | .ok _ _ => 200
  | .auth401 _ => 401
  | .notFound404 _ => 404
  | .failed500 _ => 500

/-- Record one backoff sleep of `d` ms for a part_003 loop run. -/
def withDelayDs (d : Nat) (p : DsRes × List Nat) : DsRes × List Nat :=
  (p.1, d :: p.2)

/-- The `while (retries > 0)` loop of part_003 (lines 91-167) with its
post-loop 500 return (lines 170-185).  `response.ok` returns the data;
401 and 404 return immediately; every other status records `lastError`,
decrements and sleeps `(3 - retries) * 3000` ms (even when `retries`
reaches 0); a rejected fetch decrements and sleeps only when retries
remain.  The returned list records the sleeps, in order. -/
def dsLoop (f : Nat → Up) : Nat → Nat → DsRes × List Nat
  | 0, att => (.failed500 att, [])
  | r + 1, att =>
    match f att with
    | .status c body =>
      if 200 ≤ c ∧ c < 300 then (.ok body (att + 1), [])
      else if c = 401 then (.auth401 (att + 1), [])
      else if c = 404 then (.notFound404 (att + 1), [])
      else withDelayDs ((3 - r) * 3000) (dsLoop f r (att + 1))
    | .timeout =>
      if r = 0 then (.failed500 (att + 1), [])
      else withDelayDs ((3 - r) * 3000) (dsLoop f r (att + 1))
    | .transportFail =>
      if r = 0 then (.failed500 (att + 1), [])
      else withDelayDs ((3 - r) * 3000) (dsLoop f r (att + 1))

/-- A full run of the part_003 executor: `retries = 3`. -/
def dsRun (f : Nat → Up) : DsRes × List Nat :=
  dsLoop f 3 0

/-! ## Stream relays

An upstream event-stream is a finite list of chunks followed by an
end-of-stream condition: a clean close (`reader.read()` resolving with
`done`) or a read error (`reader.read()` rejecting).  The relay output is
the ordered list of writes to the outbound writer. -/

/-- How the upstream stream ends after its chunks. -/
inductive ReadEnd where
  | eof : ReadEnd
  | readErr : String → ReadEnd
deriving DecidableEq, Repr

/-- One outbound server-sent event: a forwarded chunk, the
`data: {error:true, message:m}` error event, or the terminal
`data: [DONE]` marker. -/
inductive OutEvent where
  | chunk : String → OutEvent
  | errEvent : String → OutEvent
  | done : OutEvent
deriving DecidableEq, Repr

/-- The `pump` loop of the OpenAI streaming handler (src/api/proxy.js lines
360-383): forward each chunk in order; on `done` write `data: [DONE]` and
close; on a read error write one error event, then `data: [DONE]`, then
close. -/
def pump : List String → ReadEnd → List OutEvent
  | [], .eof => [.done]
  | [], .readErr m => [.errEvent m, .done]
  | c :: rest, e => .chunk c :: pump rest e

/-- The `processStreamChunk` recursion of the Fireworks streaming handler
(src/api/streaming.js lines 150-171): forward each chunk in order; on
`done` write `data: [DONE]` and close; on a read error its catch writes
one error event and closes the writer — without a `data: [DONE]`. -/
def processStreamChunk : List String → ReadEnd → List OutEvent
  | [], .eof => [.done]
  | [], .readErr m => [.errEvent m]
  | c :: rest, e => .chunk c :: processStreamChunk rest e

/-- The outer fetch-failure catch of the Fireworks streaming handler
(src/api/streaming.js lines 173-178): one error event, then `data: [DONE]`. -/
def streamingFetchFailure (m : String) : List OutEvent :=
  [.errEvent m, .done]

/-! ## Perplexity handlers (src/unnamed/part_000 and part_001)

Both handlers validate a `query` field, call the Perplexity API once under
a 25-second deadline, and decode citation tool-calls from a success body.
The JSON-encoded `arguments` string of a tool call is represented by the
outcome of `JSON.parse` on it: `none` when the string is not valid JSON,
otherwise the parsed object with its optional fields. -/

/-- The parsed `arguments` object of a citation tool call. -/
structure CitArgs where
  title : Option String
  url : Option String
  snippet : Option String
deriving DecidableEq, Repr

/-- A tool-call entry of the upstream message: the function name and the
`JSON.parse` outcome of its `arguments` string. -/
structure ToolCall where
  name : String
  arguments : Option CitArgs
deriving DecidableEq, Repr

/-- A decoded source entry of the `{answer, sources}` envelope.  The
placeholder produced for a malformed entry has no `snippet` field. -/
structure Source where
  title : String
  url : String
  snippet : Option String
deriving DecidableEq, Repr

/-- Decoding of one citation entry (part_000 lines 151-162, part_001 lines
182-194): on parse success, `title: args.title || "Source"`,
`url: args.url || ""`, `snippet: args.snippet || ""`; on parse failure the
per-entry catch returns `{title: "Citation", url: "#"}`. -/
def decodeCitation (c : ToolCall) : Source :=
  match c.arguments with
  | some args =>
    { title := jsOrStr args.title "Source"
      url := jsOrStr args.url ""
      snippet := some (jsOrStr args.snippet "") }
  | none => { title := "Citation", url := "#", snippet := none }

/-- The citation filter (part_000 lines 145-147): entries whose function
name is `citation` or `web_search`. -/
def isCitationCall (c : ToolCall) : Bool :=
  c.name = "citation" || c.name = "web_search"

/-- `responseData.sources` (part_000 lines 141-167): empty when the message
carries no `tool_calls`; otherwise the decoded citation entries (when the
filter selects none, `sources` keeps its initial `[]`, which coincides
with mapping over the empty list). -/
def extractSources (tool_calls : Option (List ToolCall)) : List Source :=
  match tool_calls with
  | none => []
  | some tcs => (tcs.filter isCitationCall).map decodeCitation

/-- The relevant content of a Perplexity success body: the first choice
message content and its optional tool calls. -/
structure PplxUpBody where
  content : String
  tool_calls : Option (List ToolCall)
deriving DecidableEq, Repr

/-- Outcome of the single Perplexity fetch attempt. -/
inductive PplxUp where
  | status : Int → PplxUpBody → PplxUp
  | timeout : PplxUp
  | transportFail : PplxUp
deriving DecidableEq, Repr

/-- Envelope returned by a Perplexity handler: the 200 `{answer, sources}`
body or an error envelope with its HTTP status. -/
inductive PplxRes where
  | success : String → List Source → PplxRes
  | errorResp : Int → PplxRes
deriving DecidableEq, Repr

/-- Full run of a Perplexity handler (part_000 lines 33-221, identical in
part_001): 500 when the key is missing, 400 on a JSON parse failure, 400
when `query` is absent or empty (falsy), 504 when the 25-second deadline
fires (AbortError), 500 on any other fetch failure; a non-ok upstream
status is passed through with the raw text as details; a success body
decodes to `{answer, sources}`. -/
def perplexityRun (hasKey : Bool) (body : Option (Option String)) (up : PplxUp) : PplxRes :=
  if ¬ hasKey then .errorResp 500
  else
    match body with
    | none => .errorResp 400
    | some q =>
      if jsOrStr q "" = "" then .errorResp 400
      else
        match up with
        | .timeout => .errorResp 504
        | .transportFail => .errorResp 500
        | .status c b =>
          if 200 ≤ c ∧ c < 300 then .success b.content (extractSources b.tool_calls)
          else .errorResp c

/-! ## Full error translation per handler (for the status-code claims) -/

/-- Envelope of the buffered Fireworks handler: success body or an error
status. -/
inductive FwRes where
  | success : String → FwRes
  | errorResp : Int → FwRes
deriving DecidableEq, Repr

/-- Full run of the buffered Fireworks handler (src/api/proxy.js lines
31-197): 500 when the key is missing, 400 on a JSON parse failure; the
single fetch is raced against a 28-second timer whose rejection carries
the message checked by the catch (`Request timeout` → 504, anything else
→ 500); a non-ok upstream status is passed through. -/
def fireworksRun (hasKey : Bool) (body : Option FwBody) (up : Up) : FwRes :=
  if ¬ hasKey then .errorResp 500
  else
    match body with
    | none => .errorResp 400
    | some _ =>
      match up with
      | .timeout => .errorResp 504
      | .transportFail => .errorResp 500
      | .status c b =>
        if 200 ≤ c ∧ c < 300 then .success b else .errorResp c

/-- Envelope of the Groq netlify handler over a whole request. -/
inductive GroqNetRes where
  | configMissing : GroqNetRes
  | parseFailure : GroqNetRes
  | fromLoop : GroqRes → GroqNetRes
deriving DecidableEq, Repr

/-- HTTP status the Groq netlify handler returns: a missing key is 500 and
a `JSON.parse` failure of the body is caught by the outer catch, hence
also 500 (there is no dedicated 400 branch). -/
def GroqNetRes.statusOf : GroqNetRes → Int
  | .configMissing => 500
  | .parseFailure => 500
  | .fromLoop r => r.statusOf

/-- Full run of the Groq netlify handler (lines 34-254): key check, body
parse, then the retry loop over the attempt outcomes. -/
def groqNetlifyRun (hasKey : Bool) (body : Option GroqBody) (f : Nat → Up) : GroqNetRes :=
  if ¬ hasKey then .configMissing
  else
    match body with
    | none => .parseFailure
    | some _ => .fromLoop (groqRun f).1

/-- Envelope of the part_003 handler over a whole request. -/
inductive DsNetRes where
  | configMissing : DsNetRes
  | invalidJson : DsNetRes
  | fromLoop : DsRes → DsNetRes
deriving DecidableEq, Repr

/-- HTTP status the part_003 handler returns: missing key → 500, JSON
parse failure → its dedicated 400 branch, otherwise the loop result. -/
def DsNetRes.statusOf : DsNetRes → Int
  | .configMissing => 500
  | .invalidJson => 400
  | .fromLoop r => r.statusOf

/-- Full run of the part_003 handler (lines 40-197): key check, body parse
with a dedicated 400 branch, then the retry loop. -/
def dsNetlifyRun (hasKey : Bool) (body : Option DsBody) (f : Nat → Up) : DsNetRes :=
  if ¬ hasKey then .configMissing
  else
    match body with
    | none => .invalidJson
    | some _ => .fromLoop (dsRun f).1

/-! ## Concrete fixtures for the claim statements -/

/-- A request body for the Fireworks handlers with every field absent. -/
def fwBase : FwBody :=
  { model := none, messages := none, max_tokens := none, temperature := none,
    top_p := none, stream := none }

/-- A request body for the OpenAI streaming handler with every field absent. -/
def oaBase : OaBody :=
  { messages := none, max_tokens := none, temperature := none, top_p := none,
    presence_penalty := none, frequency_penalty := none, stream := none }

/-- A request body for part_003 with every field absent. -/
def dsBase : DsBody :=
  { model := none, messages := none, max_tokens := none, temperature := none,
    top_p := none, n := none, stream := none, stop := none,
    presence_penalty := none, frequency_penalty := none }

/-- A request body for the Groq netlify handler with every field absent. -/
def groqBase : GroqBody :=
  { model := none, messages := none, max_tokens := none, temperature := none,
    top_p := none, stream := none }

/-- Upstream outcome sequence 502, then 504, then 200. -/
def seq502_504_200 : Nat → Up := fun n =>
  match n with
  | 0 => .status 502 "bad gateway"
  | 1 => .status 504 "gateway timeout"
  | _ => .status 200 "OK"

/-- A constant upstream outcome sequence. -/
def seqConst (u : Up) : Nat → Up := fun _ => u

/-! ## C1: validation of `messages` -/

/-- C1 counterexample: a parsed request whose `messages` is the empty list
is not rejected with a 400; the buffered Fireworks handler (and likewise
part_003) performs the outbound call, with the empty `messages` list in
the forwarded payload. -/
theorem C1_counterexample :
    fireworksDecision true (some { fwBase with messages := some [] }) =
      Decision.outboundCall (fireworksCleanedParams { fwBase with messages := some [] })
    ∧ (fireworksCleanedParams { fwBase with messages := some [] }).messages = some []
    ∧ dsDecision true (some { dsBase with messages := some [] }) =
      Decision.outboundCall (dsParams { dsBase with messages := some [] })
    ∧ (dsParams { dsBase with messages := some [] }).messages = some [] :=
  ⟨rfl, rfl, rfl, rfl⟩

/-- C1 amended: no handler validates the presence of `messages`.  Every
successfully parsed request body — including one whose `messages` field is
absent or an empty list — leads to an outbound provider call, and the
`messages` field of the encoded payload is the client value passed through
unchanged (dropped from the wire body when absent). -/
theorem C1_amended :
    (∀ b : FwBody,
        fireworksDecision true (some b) = Decision.outboundCall (fireworksCleanedParams b)
        ∧ (fireworksCleanedParams b).messages = b.messages)
    ∧ (∀ b : FwBody,
        streamingDecision true (some b) = Decision.outboundCall (streamingCleanedParams b)
        ∧ (streamingCleanedParams b).messages = b.messages)
    ∧ (∀ b : OaBody,
        openaiDecision true (some b) = Decision.outboundCall (openaiPayload b)
        ∧ (openaiPayload b).messages = b.messages)
    ∧ (∀ b : DsBody,
        dsDecision true (some b) = Decision.outboundCall (dsParams b)
        ∧ (dsParams b).messages = b.messages)
    ∧ (∀ b : GroqBody,
        groqNetlifyDecision true (some b) = Decision.outboundCall (groqNetlifyPayload b)
        ∧ (groqNetlifyPayload b).messages = b.messages) :=
  ⟨fun _ => ⟨rfl, rfl⟩, fun _ => ⟨rfl, rfl⟩, fun _ => ⟨rfl, rfl⟩,
   fun _ => ⟨rfl, rfl⟩, fun _ => ⟨rfl, rfl⟩⟩

/-! ## C4: stream relay termination -/

/-- C4: the relays forward chunks in arrival order, and on a clean upstream
close both emit exactly one terminal `data: [DONE]`; but on an upstream
read error the Fireworks streaming relay (`processStreamChunk`) emits the
error event and closes without a `[DONE]`, while the OpenAI relay (`pump`)
emits the error event followed by `[DONE]` as the claim states. -/
theorem C4_stream_termination :
    processStreamChunk [] (ReadEnd.readErr "boom") = [OutEvent.errEvent "boom"]
    ∧ pump [] (ReadEnd.readErr "boom") = [OutEvent.errEvent "boom", OutEvent.done]
    ∧ processStreamChunk ["Hello", " world"] ReadEnd.eof =
        [OutEvent.chunk "Hello", OutEvent.chunk " world", OutEvent.done]
    ∧ pump ["Hello", " world"] ReadEnd.eof =
        [OutEvent.chunk "Hello", OutEvent.chunk " world", OutEvent.done]
    ∧ processStreamChunk ["Hello"] (ReadEnd.readErr "boom") =
        [OutEvent.chunk "Hello", OutEvent.errEvent "boom"] :=
  ⟨rfl, rfl, rfl, rfl, rfl⟩

/-! ## C5: the `stream` field of the encoded payload -/

/-- C5 counterexample: the buffered Groq handlers do not force
`stream: false`; a client `stream: true` flag reaches the outbound payload
of a buffered endpoint unchanged. -/
theorem C5_counterexample :
    (dsParams { dsBase with stream := some true }).stream = some true
    ∧ (groqNetlifyPayload { groqBase with stream := some true }).stream = some true
    ∧ some true ≠ some false :=
  ⟨rfl, rfl, by decide⟩

/-- C5 amended: the streaming endpoints force `stream: true` and the
buffered Fireworks endpoint forces `stream: false` in the encoded payload,
regardless of the client flag; the two buffered Groq handlers instead pass
the client `stream` flag through unchanged (omitting it when unset). -/
theorem C5_amended :
    (∀ b : FwBody, (fireworksCleanedParams b).stream = false)
    ∧ (∀ b : FwBody, (streamingCleanedParams b).stream = true)
    ∧ (∀ b : OaBody, (openaiPayload b).stream = true)
    ∧ (∀ b : DsBody, (dsParams b).stream = b.stream)
    ∧ (∀ b : GroqBody, (groqNetlifyPayload b).stream = b.stream) :=
  ⟨fun _ => rfl, fun _ => rfl, fun _ => rfl, fun _ => rfl, fun _ => rfl⟩

/-! ## C6: explicit zero for `temperature` and `top_p` -/

/-- C6 counterexample: the OpenAI streaming handler encodes an explicit
`temperature: 0` as `0.7` (and an explicit `top_p: 0` as `1`), because it
fills defaults with the falsy-sensitive `||` operator; part_003 does the
same for `temperature`. -/
theorem C6_counterexample :
    (openaiPayload { oaBase with temperature := some 0 }).temperature = 7/10
    ∧ (openaiPayload { oaBase with top_p := some 0 }).top_p = 1
    ∧ (dsParams { dsBase with temperature := some 0 }).temperature = 7/10
    ∧ (7/10 : ℚ) ≠ 0 :=
  ⟨by simp [openaiPayload, jsOrRat], by simp [openaiPayload, jsOrRat],
   by simp [dsParams, jsOrRat], by norm_num⟩

/-- C6 amended: the two Fireworks handlers carry explicit `temperature` and
`top_p` values — including an explicit 0 — unchanged and omit absent ones;
the OpenAI streaming handler and part_003 replace a falsy `temperature`
(absent or explicit 0) by 0.7, and the OpenAI handler replaces a falsy
`top_p` by 1, while part_003 passes `top_p` through unchanged. -/
theorem C6_amended :
    (∀ b : FwBody,
        (fireworksCleanedParams b).temperature = b.temperature
        ∧ (fireworksCleanedParams b).top_p = b.top_p
        ∧ (streamingCleanedParams b).temperature = b.temperature
        ∧ (streamingCleanedParams b).top_p = b.top_p)
    ∧ (∀ (b : OaBody) (t : ℚ), t ≠ 0 →
        (openaiPayload { b with temperature := some t }).temperature = t
        ∧ (openaiPayload { b with top_p := some t }).top_p = t)
    ∧ (∀ b : OaBody,
        (openaiPayload { b with temperature := some 0 }).temperature = 7/10
        ∧ (openaiPayload { b with top_p := some 0 }).top_p = 1
        ∧ (openaiPayload { b with temperature := none }).temperature = 7/10
        ∧ (openaiPayload { b with top_p := none }).top_p = 1)
    ∧ (∀ (b : DsBody) (t : ℚ), t ≠ 0 →
        (dsParams { b with temperature := some t }).temperature = t)
    ∧ (∀ b : DsBody,
        (dsParams { b with temperature := some 0 }).temperature = 7/10
        ∧ (dsParams { b with temperature := none }).temperature = 7/10
        ∧ (dsParams b).top_p = b.top_p) := by
  refine ⟨fun b => ⟨rfl, rfl, rfl, rfl⟩, ?_, ?_, ?_, ?_⟩
  · intro b t ht
    constructor
    · simp [openaiPayload, jsOrRat, ht]
    · simp [openaiPayload, jsOrRat, ht]
  · intro b
    refine ⟨?_, ?_, rfl, rfl⟩
    · simp [openaiPayload, jsOrRat]
    · simp [openaiPayload, jsOrRat]
  · intro b t ht
    simp [dsParams, jsOrRat, ht]
  · intro b
    refine ⟨?_, rfl, rfl⟩
    simp [dsParams, jsOrRat]

/-- Witness for C6 amended at a concrete explicit nonzero value. -/
theorem C6_amended_witness :
    (openaiPayload { oaBase with temperature := some (1/2) }).temperature = 1/2
    ∧ (dsParams { dsBase with temperature := some (1/2) }).temperature = 1/2 :=
  ⟨(C6_amended.2.1 oaBase (1/2) (by norm_num)).1,
   C6_amended.2.2.2.1 dsBase (1/2) (by norm_num)⟩

/-! ## C2: the `max_tokens` clamp -/

/-- C2 counterexample: part_003 defaults an unset `max_tokens` to 8192, not
4096; and the Groq netlify handler applies no lower bound, so an explicit
`max_tokens: -5` is sent upstream as -5 rather than clamped to 1. -/
theorem C2_counterexample :
    (dsParams dsBase).max_tokens = 8192
    ∧ (8192 : Int) ≠ 4096
    ∧ (groqNetlifyPayload { groqBase with max_tokens := some (-5) }).max_tokens = -5
    ∧ (-5 : Int) ≠ 1 :=
  ⟨by decide, by decide, by decide, by decide⟩

/-- C2 amended: the `max_tokens` value in the encoded payload is computed
per handler.  The OpenAI and Fireworks handlers clamp a truthy
caller-supplied value into [1, 4096] and [1, 8192] respectively, and use
4096 when the field is unset (or an explicit, falsy 0).  The Groq netlify
handler only caps values above 32000 and replaces falsy values by 4096 —
it has no lower bound, so negative values are sent unchanged.  Part_003
computes min(value, 32000) with falsy values replaced by 8192, also with
no lower bound. -/
theorem C2_amended :
    (∀ v : Int, v ≠ 0 →
        (openaiPayload { oaBase with max_tokens := some v }).max_tokens = min (max 1 v) 4096
        ∧ (fireworksCleanedParams { fwBase with max_tokens := some v }).max_tokens =
            min (max 1 v) 8192
        ∧ (streamingCleanedParams { fwBase with max_tokens := some v }).max_tokens =
            min (max 1 v) 8192
        ∧ (dsParams { dsBase with max_tokens := some v }).max_tokens = min v 32000
        ∧ (groqNetlifyPayload { groqBase with max_tokens := some v }).max_tokens =
            if v > 32000 then 32000 else v)
    ∧ ((openaiPayload oaBase).max_tokens = 4096
        ∧ (fireworksCleanedParams fwBase).max_tokens = 4096
        ∧ (streamingCleanedParams fwBase).max_tokens = 4096
        ∧ (dsParams dsBase).max_tokens = 8192
        ∧ (groqNetlifyPayload groqBase).max_tokens = 4096)
    ∧ ((openaiPayload { oaBase with max_tokens := some 0 }).max_tokens = 4096
        ∧ (dsParams { dsBase with max_tokens := some 0 }).max_tokens = 8192
        ∧ (groqNetlifyPayload { groqBase with max_tokens := some 0 }).max_tokens = 4096) := by
  refine ⟨?_, ⟨by decide, by decide, by decide, by decide, by decide⟩,
          ⟨by decide, by decide, by decide⟩⟩
  intro v hv
  refine ⟨?_, ?_, ?_, ?_, ?_⟩
  · simp [openaiPayload, validatedMaxTokens, jsOrInt, hv]
  · simp [fireworksCleanedParams, validatedMaxTokens, jsOrInt, hv]
  · simp [streamingCleanedParams, validatedMaxTokens, jsOrInt, hv]
  · simp [dsParams, jsOrInt, hv]
  · simp only [groqNetlifyPayload, groqMaxTokens]
    split_ifs <;> omega

/-- Witness for C2 amended at a concrete out-of-range value. -/
theorem C2_amended_witness :
    (openaiPayload { oaBase with max_tokens := some 9999 }).max_tokens = min (max 1 9999) 4096 :=
  (C2_amended.1 9999 (by decide)).1

/-! ## C10: the Groq interface-model substitution -/

/-- C10: for each of the five interface model names the Groq netlify
handler substitutes the fixed MODEL_MAP entry — `llama-3-70b-chat` for all
of them except `mixtral-8x7b-32768`, which maps to itself — and a success
returns the upstream response body verbatim, carrying no record of the
substitution. -/
theorem C10_model_map :
    (∀ b : GroqBody, b.model = some "qwen-2.5-coder-32b" →
        (groqNetlifyPayload b).model = some "llama-3-70b-chat")
    ∧ (∀ b : GroqBody, b.model = some "llama-3.3-70b-versatile" →
        (groqNetlifyPayload b).model = some "llama-3-70b-chat")
    ∧ (∀ b : GroqBody, b.model = some "mixtral-8x7b-32768" →
        (groqNetlifyPayload b).model = some "mixtral-8x7b-32768")
    ∧ (∀ b : GroqBody, b.model = some "qwen-qwq-32b" →
        (groqNetlifyPayload b).model = some "llama-3-70b-chat")
    ∧ (∀ b : GroqBody, b.model = some "llama-3.2-90b-vision-preview" →
        (groqNetlifyPayload b).model = some "llama-3-70b-chat")
    ∧ (∀ (f : Nat → Up) (body : String), f 0 = Up.status 200 body →
        (groqRun f).1 = GroqRes.ok body 1) := by
  refine ⟨?_, ?_, ?_, ?_, ?_, ?_⟩
  · intro b h; simp [groqNetlifyPayload, h]; decide
  · intro b h; simp [groqNetlifyPayload, h]; decide
  · intro b h; simp [groqNetlifyPayload, h]; decide
  · intro b h; simp [groqNetlifyPayload, h]; decide
  · intro b h; simp [groqNetlifyPayload, h]; decide
  · intro f body h
    simp [groqRun, groqLoop, h]

/-- Witness for C10 at a concrete request and upstream success. -/
theorem C10_model_map_witness :
    (groqNetlifyPayload { groqBase with model := some "qwen-qwq-32b" }).model =
      some "llama-3-70b-chat"
    ∧ (groqRun (seqConst (Up.status 200 "DATA"))).1 = GroqRes.ok "DATA" 1 :=
  ⟨C10_model_map.2.2.2.1 { groqBase with model := some "qwen-qwq-32b" } rfl,
   C10_model_map.2.2.2.2.2 (seqConst (Up.status 200 "DATA")) "DATA" rfl⟩

/-! ## C9: citation decoding with a malformed entry -/

/-- A citation tool call whose `arguments` parsed successfully. -/
def goodCit : ToolCall :=
  { name := "citation",
    arguments := some { title := some "T", url := some "https://x", snippet := some "S" } }

/-- A citation tool call whose `arguments` is not valid JSON. -/
def badCit : ToolCall :=
  { name := "web_search", arguments := none }

/-- C9: an entry whose `arguments` is not valid JSON decodes to the
placeholder `{title: "Citation", url: "#"}`; an entry with valid JSON
arguments decodes to `{title, url, snippet}` with the per-field `||`
defaults; a malformed entry in the middle of a citation list leaves its
siblings decoded normally; and any 2xx upstream body yields the success
envelope — decoding never fails the response. -/
theorem C9_citation_decoding :
    (∀ c : ToolCall, c.arguments = none →
        decodeCitation c = { title := "Citation", url := "#", snippet := none })
    ∧ (∀ (c : ToolCall) (args : CitArgs), c.arguments = some args →
        decodeCitation c =
          { title := jsOrStr args.title "Source", url := jsOrStr args.url "",
            snippet := some (jsOrStr args.snippet "") })
    ∧ (∀ (pre post : List ToolCall) (bad : ToolCall),
        isCitationCall bad = true → bad.arguments = none →
        extractSources (some (pre ++ bad :: post)) =
          extractSources (some pre)
            ++ { title := "Citation", url := "#", snippet := none }
              :: extractSources (some post))
    ∧ (∀ (q : String) (b : PplxUpBody), q ≠ "" →
        perplexityRun true (some (some q)) (PplxUp.status 200 b) =
          PplxRes.success b.content (extractSources b.tool_calls)) := by
  refine ⟨?_, ?_, ?_, ?_⟩
  · intro c h
    simp [decodeCitation, h]
  · intro c args h
    simp [decodeCitation, h]
  · intro pre post bad hcit hargs
    simp [extractSources, List.filter_append, List.filter_cons, hcit, decodeCitation, hargs]
  · intro q b hq
    simp [perplexityRun, jsOrStr, hq]

/-- Witness for C9 on a concrete citation list with one malformed entry,
and a concrete successful response. -/
theorem C9_citation_decoding_witness :
    extractSources (some ([goodCit] ++ badCit :: [goodCit])) =
      extractSources (some [goodCit])
        ++ { title := "Citation", url := "#", snippet := none }
          :: extractSources (some [goodCit])
    ∧ perplexityRun true (some (some "query"))
        (PplxUp.status 200 { content := "ans", tool_calls := some [goodCit, badCit] }) =
      PplxRes.success "ans" (extractSources (some [goodCit, badCit])) :=
  ⟨C9_citation_decoding.2.2.1 [goodCit] [goodCit] badCit (by decide) rfl,
   C9_citation_decoding.2.2.2 "query"
     { content := "ans", tool_calls := some [goodCit, badCit] } (by decide)⟩

/-! ## Retry-loop lemmas -/

/-- The Groq netlify loop never makes more attempts than it has fetches
left: at most `att + r` in total. -/
theorem groqLoop_attempts_le (f : Nat → Up) :
    ∀ (r att : Nat) (last : Option (Int × String)),
      ((groqLoop f r att last).1).attempts ≤ att + r := by
  intro r
  induction r with
  | zero =>
    intro att last
    rcases last with _ | ⟨c, body⟩
    · simp [groqLoop, GroqRes.attempts]
    · simp only [groqLoop]
      split_ifs <;> simp [GroqRes.attempts]
  | succ r ih =>
    intro att last
    cases h : f att with
    | status c body =>
      simp only [groqLoop, h]
      split_ifs
      · have := ih (att + 1) (some (c, body))
        simp only [withDelay]
        omega
      · simp only [GroqRes.attempts]; omega
      · simp only [GroqRes.attempts]; omega
    | timeout =>
      simp only [groqLoop, h]
      split_ifs
      · simp only [GroqRes.attempts]; omega
      · have := ih (att + 1) last
        simp only [withDelay]
        omega
    | transportFail =>
      simp only [groqLoop, h]
      split_ifs
      · simp only [GroqRes.attempts]; omega
      · have := ih (att + 1) last
        simp only [withDelay]
        omega

/-- The part_003 loop makes at most `att + r` attempts in total. -/
theorem dsLoop_attempts_le (f : Nat → Up) :
    ∀ (r att : Nat), ((dsLoop f r att).1).attempts ≤ att + r := by
  intro r
  induction r with
  | zero =>
    intro att
    simp [dsLoop, DsRes.attempts]
  | succ r ih =>
    intro att
    cases h : f att with
    | status c body =>
      simp only [dsLoop, h]
      split_ifs
      · simp only [DsRes.attempts]; omega
      · simp only [DsRes.attempts]; omega
      · simp only [DsRes.attempts]; omega
      · have := ih (att + 1)
        simp only [withDelayDs]
        omega
    | timeout =>
      simp only [dsLoop, h]
      split_ifs
      · simp only [DsRes.attempts]; omega
      · have := ih (att + 1)
        simp only [withDelayDs]
        omega
    | transportFail =>
      simp only [dsLoop, h]
      split_ifs
      · simp only [DsRes.attempts]; omega
      · have := ih (att + 1)
        simp only [withDelayDs]
        omega

/-- The part_003 loop has made at least `att` attempts when entered with
counter `att`. -/
theorem dsLoop_attempts_ge (f : Nat → Up) :
    ∀ (r att : Nat), att ≤ ((dsLoop f r att).1).attempts := by
  intro r
  induction r with
  | zero =>
    intro att
    simp [dsLoop, DsRes.attempts]
  | succ r ih =>
    intro att
    cases h : f att with
    | status c body =>
      simp only [dsLoop, h]
      split_ifs
      · simp only [DsRes.attempts]; omega
      · simp only [DsRes.attempts]; omega
      · simp only [DsRes.attempts]; omega
      · have := ih (att + 1)
        simp only [withDelayDs]
        omega
    | timeout =>
      simp only [dsLoop, h]
      split_ifs
      · simp only [DsRes.attempts]; omega
      · have := ih (att + 1)
        simp only [withDelayDs]
        omega
    | transportFail =>
      simp only [dsLoop, h]
      split_ifs
      · simp only [DsRes.attempts]; omega
      · have := ih (att + 1)
        simp only [withDelayDs]
        omega

/-- When retries remain, the part_003 loop performs at least one more
attempt. -/
theorem dsLoop_attempts_succ (f : Nat → Up) (r att : Nat) :
    att + 1 ≤ ((dsLoop f (r + 1) att).1).attempts := by
  cases h : f att with
  | status c body =>
    simp only [dsLoop, h]
    split_ifs
    · simp only [DsRes.attempts]; omega
    · simp only [DsRes.attempts]; omega
    · simp only [DsRes.attempts]; omega
    · have := dsLoop_attempts_ge f r (att + 1)
      simp only [withDelayDs]
      omega
  | timeout =>
    simp only [dsLoop, h]
    split_ifs
    · simp only [DsRes.attempts]; omega
    · have := dsLoop_attempts_ge f r (att + 1)
      simp only [withDelayDs]
      omega
  | transportFail =>
    simp only [dsLoop, h]
    split_ifs
    · simp only [DsRes.attempts]; omega
    · have := dsLoop_attempts_ge f r (att + 1)
      simp only [withDelayDs]
      omega

/-! ## C3: the retry policy -/

/-- C3 counterexample: the part_003 executor does not end the loop
immediately on a non-retryable error status — a constant upstream 429
is attempted 3 times (and then surfaced as a 500), where the claim
requires exactly 1 attempt for any status at or above 400 other than
502/504. -/
theorem C3_counterexample :
    ((dsRun (seqConst (Up.status 429 "rate limited"))).1).attempts = 3
    ∧ (3 : Nat) ≠ 1 :=
  ⟨rfl, by decide⟩

/-- C3 amended: both executors make at most 3 attempts, and both perform
exactly 3 attempts returning the 200 result on the sequence
[502, 504, 200] and exactly 1 attempt on an upstream 401.  The Groq
netlify executor retries only on 502/504 (or a failed fetch) and ends the
loop immediately on a successful response or any other status.  The
part_003 executor instead returns immediately only on a 2xx, 401 or 404
outcome and retries every other error status, so a non-retryable status
such as 429 is attempted more than once there. -/
theorem C3_amended :
    (∀ f : Nat → Up, ((groqRun f).1).attempts ≤ 3 ∧ ((dsRun f).1).attempts ≤ 3)
    ∧ (∀ (f : Nat → Up) (c : Int) (b : String), f 0 = Up.status c b →
        ¬ (c = 502 ∨ c = 504) → ((groqRun f).1).attempts = 1)
    ∧ (∀ (f : Nat → Up) (b : String), f 0 = Up.status 200 b →
        (groqRun f).1 = GroqRes.ok b 1 ∧ (dsRun f).1 = DsRes.ok b 1)
    ∧ ((groqRun seq502_504_200).1 = GroqRes.ok "OK" 3
        ∧ (dsRun seq502_504_200).1 = DsRes.ok "OK" 3)
    ∧ ((groqRun (seqConst (Up.status 401 "auth"))).1 = GroqRes.errEnvelope 401 1
        ∧ (dsRun (seqConst (Up.status 401 "auth"))).1 = DsRes.auth401 1)
    ∧ (∀ (f : Nat → Up) (c : Int) (b : String), f 0 = Up.status c b →
        ¬ (200 ≤ c ∧ c < 300) → c ≠ 401 → c ≠ 404 →
        2 ≤ ((dsRun f).1).attempts) := by
  refine ⟨?_, ?_, ?_, ⟨rfl, rfl⟩, ⟨rfl, rfl⟩, ?_⟩
  · intro f
    exact ⟨groqLoop_attempts_le f 3 0 none, dsLoop_attempts_le f 3 0⟩
  · intro f c b h hc
    simp only [groqRun, groqLoop, h]
    rw [if_neg hc]
    split_ifs <;> rfl
  · intro f b h
    constructor
    · simp [groqRun, groqLoop, h]
    · simp [dsRun, dsLoop, h]
  · intro f c b h hok h401 h404
    simp only [dsRun, dsLoop, h]
    rw [if_neg hok, if_neg h401, if_neg h404]
    simp only [withDelayDs]
    exact dsLoop_attempts_succ f 1 1

/-- Witness for C3 amended at concrete sequences. -/
theorem C3_amended_witness :
    ((groqRun (seqConst (Up.status 404 "missing"))).1).attempts = 1
    ∧ 2 ≤ ((dsRun (seqConst (Up.status 500 "boom"))).1).attempts :=
  ⟨C3_amended.2.1 (seqConst (Up.status 404 "missing")) 404 "missing" rfl (by decide),
   C3_amended.2.2.2.2.2 (seqConst (Up.status 500 "boom")) 500 "boom" rfl
     (by decide) (by decide) (by decide)⟩

/-! ## C7: error envelope status codes -/

/-- C7 counterexample: on the Groq netlify handler an elapsed upstream
deadline (the AbortController firing on every attempt) surfaces through
the outer catch with HTTP status 500, not the 504 the claim requires. -/
theorem C7_counterexample :
    (groqNetlifyRun true (some groqBase) (seqConst Up.timeout)).statusOf = 500
    ∧ (500 : Int) ≠ 504 :=
  ⟨rfl, by decide⟩

/-- C7 amended: a missing API key yields 500 in every handler.  Malformed
request JSON yields 400 in the Fireworks, Perplexity and part_003
handlers, but 500 in the Groq netlify handler (its parse failure falls
into the outer catch).  An elapsed upstream deadline yields 504 in the
Fireworks buffered and Perplexity handlers, but 500 in both Groq handlers
(their aborts are retried as fetch failures and surface as 500).  An
upstream error status is passed through unchanged by the Fireworks,
Perplexity and Groq netlify handlers (the latter also after exhausting
its 502 retries), while part_003 passes through only 401 and 404 and
surfaces every other upstream error as 500 after its retries. -/
theorem C7_amended :
    (∀ (b : Option FwBody) (u : Up), fireworksRun false b u = FwRes.errorResp 500)
    ∧ (∀ (b : Option (Option String)) (u : PplxUp),
        perplexityRun false b u = PplxRes.errorResp 500)
    ∧ (∀ (b : Option GroqBody) (f : Nat → Up), (groqNetlifyRun false b f).statusOf = 500)
    ∧ (∀ (b : Option DsBody) (f : Nat → Up), (dsNetlifyRun false b f).statusOf = 500)
    ∧ (∀ u : Up, fireworksRun true none u = FwRes.errorResp 400)
    ∧ (∀ u : PplxUp, perplexityRun true none u = PplxRes.errorResp 400)
    ∧ (∀ f : Nat → Up, (dsNetlifyRun true none f).statusOf = 400)
    ∧ (∀ f : Nat → Up, (groqNetlifyRun true none f).statusOf = 500)
    ∧ (∀ b : FwBody, fireworksRun true (some b) Up.timeout = FwRes.errorResp 504)
    ∧ (∀ q : String, q ≠ "" →
        perplexityRun true (some (some q)) PplxUp.timeout = PplxRes.errorResp 504)
    ∧ (∀ b : GroqBody, (groqNetlifyRun true (some b) (seqConst Up.timeout)).statusOf = 500)
    ∧ (∀ b : DsBody, (dsNetlifyRun true (some b) (seqConst Up.timeout)).statusOf = 500)
    ∧ (∀ (b : FwBody) (c : Int) (s : String), ¬ (200 ≤ c ∧ c < 300) →
        fireworksRun true (some b) (Up.status c s) = FwRes.errorResp c)
    ∧ (∀ (q : String) (c : Int) (pb : PplxUpBody), q ≠ "" → ¬ (200 ≤ c ∧ c < 300) →
        perplexityRun true (some (some q)) (PplxUp.status c pb) = PplxRes.errorResp c)
    ∧ (∀ (b : GroqBody) (f : Nat → Up) (c : Int) (s : String), f 0 = Up.status c s →
        ¬ (200 ≤ c ∧ c < 300) → ¬ (c = 502 ∨ c = 504) →
        (groqNetlifyRun true (some b) f).statusOf = c)
    ∧ (∀ b : GroqBody,
        (groqNetlifyRun true (some b) (seqConst (Up.status 502 "bad"))).statusOf = 502)
    ∧ (∀ b : DsBody,
        (dsNetlifyRun true (some b) (seqConst (Up.status 401 "x"))).statusOf = 401
        ∧ (dsNetlifyRun true (some b) (seqConst (Up.status 404 "x"))).statusOf = 404
        ∧ (dsNetlifyRun true (some b) (seqConst (Up.status 429 "x"))).statusOf = 500) := by
  refine ⟨fun _ _ => rfl, fun _ _ => rfl, fun _ _ => rfl, fun _ _ => rfl,
          fun _ => rfl, fun _ => rfl, fun _ => rfl, fun _ => rfl,
          fun _ => rfl, ?_, fun _ => rfl, fun _ => rfl, ?_, ?_, ?_,
          fun _ => rfl, fun _ => ⟨rfl, rfl, rfl⟩⟩
  · intro q hq
    simp [perplexityRun, jsOrStr, hq]
  · intro b c s hok
    simp only [fireworksRun]
    rw [if_neg (by simp)]
    rw [if_neg hok]
  · intro q c pb hq hok
    simp only [perplexityRun, jsOrStr]
    rw [if_neg (by simp)]
    simp only [if_neg hq, if_neg hok]
  · intro b f c s h hok hretry
    simp only [groqNetlifyRun, groqRun, groqLoop, h]
    rw [if_neg (by simp), if_neg hretry, if_neg hok]
    rfl

/-- Witness for C7 amended at concrete failure inputs. -/
theorem C7_amended_witness :
    perplexityRun true (some (some "q")) PplxUp.timeout = PplxRes.errorResp 504
    ∧ fireworksRun true (some fwBase) (Up.status 418 "teapot") = FwRes.errorResp 418
    ∧ (groqNetlifyRun true (some groqBase) (seqConst (Up.status 429 "x"))).statusOf = 429 :=
  ⟨C7_amended.2.2.2.2.2.2.2.2.2.1 "q" (by decide),
   C7_amended.2.2.2.2.2.2.2.2.2.2.2.2.1 fwBase 418 "teapot" (by decide),
   C7_amended.2.2.2.2.2.2.2.2.2.2.2.2.2.2.1 groqBase (seqConst (Up.status 429 "x"))
     429 "x" rfl (by decide) (by decide)⟩

/-! ## C8: the backoff delays -/

/-- Unfolding one step of the linearly increasing delay sequence. -/
theorem range_map_mul_cons (k n : Nat) :
    (List.range (n + 1)).map (fun i => (k + i + 1) * 3000) =
      (k + 1) * 3000 :: (List.range n).map (fun i => (k + i + 2) * 3000) := by
  rw [List.range_succ_eq_map, List.map_cons, List.map_map]
  simp only [List.cons.injEq]
  refine ⟨?_, List.map_congr_left fun a _ => ?_⟩
  · trivial
  · simp only [Function.comp_apply]
    omega

/-- The sleeps of a Groq netlify loop run started with `r ≤ 3` retries
form the sequence `(3 - r + 1) * 3000, (3 - r + 2) * 3000, ...`: each
sleep is `(number of attempts already made) * 3000` ms. -/
theorem groqLoop_delays (f : Nat → Up) :
    ∀ (r att : Nat) (last : Option (Int × String)), r ≤ 3 →
      ∃ n : Nat, n ≤ r ∧
        (groqLoop f r att last).2 =
          (List.range n).map (fun i => (3 - r + i + 1) * 3000) := by
  intro r
  induction r with
  | zero =>
    intro att last _
    refine ⟨0, Nat.le_refl 0, ?_⟩
    rcases last with _ | ⟨c, body⟩
    · simp [groqLoop]
    · simp only [groqLoop]
      split_ifs <;> simp
  | succ r ih =>
    intro att last hr
    have hr2 : r ≤ 2 := by omega
    cases h : f att with
    | status c body =>
      simp only [groqLoop, h]
      split_ifs
      · obtain ⟨n, hn, htail⟩ := ih (att + 1) (some (c, body)) (by omega)
        refine ⟨n + 1, by omega, ?_⟩
        have hk : (fun i => (3 - (r + 1) + i + 1) * 3000) =
            fun i : Nat => (2 - r + i + 1) * 3000 :=
          funext fun i => by omega
        have hg : (fun i => (3 - r + i + 1) * 3000) =
            fun i : Nat => (2 - r + i + 2) * 3000 :=
          funext fun i => by omega
        have hd : (3 - r) * 3000 = (2 - r + 1) * 3000 := by omega
        simp only [withDelay, htail]
        rw [hk, hg, hd, range_map_mul_cons]
      · exact ⟨0, by omega, by simp⟩
      · exact ⟨0, by omega, by simp⟩
    | timeout =>
      simp only [groqLoop, h]
      split_ifs
      · exact ⟨0, by omega, by simp⟩
      · obtain ⟨n, hn, htail⟩ := ih (att + 1) last (by omega)
        refine ⟨n + 1, by omega, ?_⟩
        have hk : (fun i => (3 - (r + 1) + i + 1) * 3000) =
            fun i : Nat => (2 - r + i + 1) * 3000 :=
          funext fun i => by omega
        have hg : (fun i => (3 - r + i + 1) * 3000) =
            fun i : Nat => (2 - r + i + 2) * 3000 :=
          funext fun i => by omega
        have hd : (3 - r) * 3000 = (2 - r + 1) * 3000 := by omega
        simp only [withDelay, htail]
        rw [hk, hg, hd, range_map_mul_cons]
    | transportFail =>
      simp only [groqLoop, h]
      split_ifs
      · exact ⟨0, by omega, by simp⟩
      · obtain ⟨n, hn, htail⟩ := ih (att + 1) last (by omega)
        refine ⟨n + 1, by omega, ?_⟩
        have hk : (fun i => (3 - (r + 1) + i + 1) * 3000) =
            fun i : Nat => (2 - r + i + 1) * 3000 :=
          funext fun i => by omega
        have hg : (fun i => (3 - r + i + 1) * 3000) =
            fun i : Nat => (2 - r + i + 2) * 3000 :=
          funext fun i => by omega
        have hd : (3 - r) * 3000 = (2 - r + 1) * 3000 := by omega
        simp only [withDelay, htail]
        rw [hk, hg, hd, range_map_mul_cons]

/-- The sleeps of a part_003 loop run follow the same
`(attempts already made) * 3000` ms sequence. -/
theorem dsLoop_delays (f : Nat → Up) :
    ∀ (r att : Nat), r ≤ 3 →
      ∃ n : Nat, n ≤ r ∧
        (dsLoop f r att).2 = (List.range n).map (fun i => (3 - r + i + 1) * 3000) := by
  intro r
  induction r with
  | zero =>
    intro att _
    exact ⟨0, Nat.le_refl 0, by simp [dsLoop]⟩
  | succ r ih =>
    intro att hr
    have hr2 : r ≤ 2 := by omega
    cases h : f att with
    | status c body =>
      simp only [dsLoop, h]
      split_ifs
      · exact ⟨0, by omega, by simp⟩
      · exact ⟨0, by omega, by simp⟩
      · exact ⟨0, by omega, by simp⟩
      · obtain ⟨n, hn, htail⟩ := ih (att + 1) (by omega)
        refine ⟨n + 1, by omega, ?_⟩
        have hk : (fun i => (3 - (r + 1) + i + 1) * 3000) =
            fun i : Nat => (2 - r + i + 1) * 3000 :=
          funext fun i => by omega
        have hg : (fun i => (3 - r + i + 1) * 3000) =
            fun i : Nat => (2 - r + i + 2) * 3000 :=
          funext fun i => by omega
        have hd : (3 - r) * 3000 = (2 - r + 1) * 3000 := by omega
        simp only [withDelayDs, htail]
        rw [hk, hg, hd, range_map_mul_cons]
    | timeout =>
      simp only [dsLoop, h]
      split_ifs
      · exact ⟨0, by omega, by simp⟩
      · obtain ⟨n, hn, htail⟩ := ih (att + 1) (by omega)
        refine ⟨n + 1, by omega, ?_⟩
        have hk : (fun i => (3 - (r + 1) + i + 1) * 3000) =
            fun i : Nat => (2 - r + i + 1) * 3000 :=
          funext fun i => by omega
        have hg : (fun i => (3 - r + i + 1) * 3000) =
            fun i : Nat => (2 - r + i + 2) * 3000 :=
          funext fun i => by omega
        have hd : (3 - r) * 3000 = (2 - r + 1) * 3000 := by omega
        simp only [withDelayDs, htail]
        rw [hk, hg, hd, range_map_mul_cons]
    | transportFail =>
      simp only [dsLoop, h]
      split_ifs
      · exact ⟨0, by omega, by simp⟩
      · obtain ⟨n, hn, htail⟩ := ih (att + 1) (by omega)
        refine ⟨n + 1, by omega, ?_⟩
        have hk : (fun i => (3 - (r + 1) + i + 1) * 3000) =
            fun i : Nat => (2 - r + i + 1) * 3000 :=
          funext fun i => by omega
        have hg : (fun i => (3 - r + i + 1) * 3000) =
            fun i : Nat => (2 - r + i + 2) * 3000 :=
          funext fun i => by omega
        have hd : (3 - r) * 3000 = (2 - r + 1) * 3000 := by omega
        simp only [withDelayDs, htail]
        rw [hk, hg, hd, range_map_mul_cons]

/-- C8 counterexample: for the upstream sequence [502, 504, 200] the Groq
netlify executor sleeps 3000 ms before attempt 2 and 6000 ms before
attempt 3.  The claim formula — (retries remaining before the attempt) *
3000 ms, which is 2 * 3000 before attempt 2 and 1 * 3000 before attempt 3
— predicts [6000, 3000] instead. -/
theorem C8_counterexample :
    (groqRun seq502_504_200).2 = [3000, 6000]
    ∧ ([3000, 6000] : List Nat) ≠ [2 * 3000, 1 * 3000] :=
  ⟨rfl, by decide⟩

/-- C8 amended: the backoff delay slept before attempt k equals (number of
attempts already made, i.e. 3 minus the retries remaining) * 3000 ms: the
recorded sleeps of any run of either executor are a prefix of
[3000, 6000, 9000], so the successive delays increase linearly — not
exponentially — with each retry. -/
theorem C8_amended :
    (∀ f : Nat → Up, ∃ n : Nat, n ≤ 3 ∧
        (groqRun f).2 = (List.range n).map (fun i => (i + 1) * 3000))
    ∧ (∀ f : Nat → Up, ∃ n : Nat, n ≤ 3 ∧
        (dsRun f).2 = (List.range n).map (fun i => (i + 1) * 3000))
    ∧ (groqRun seq502_504_200).2 = [3000, 6000]
    ∧ (dsRun seq502_504_200).2 = [3000, 6000]
    ∧ (∀ f : Nat → Up,
        List.Pairwise (fun a b => a < b) (groqRun f).2
        ∧ List.Pairwise (fun a b => a < b) (dsRun f).2) := by
  have hfun : (fun i => (3 - 3 + i + 1) * 3000) = (fun i : Nat => (i + 1) * 3000) :=
    funext fun i => by omega
  have hgroq : ∀ f : Nat → Up, ∃ n : Nat, n ≤ 3 ∧
      (groqRun f).2 = (List.range n).map (fun i => (i + 1) * 3000) := by
    intro f
    obtain ⟨n, hn, h⟩ := groqLoop_delays f 3 0 none (by omega)
    refine ⟨n, hn, ?_⟩
    show (groqLoop f 3 0 none).2 = _
    rw [h, hfun]
  have hds : ∀ f : Nat → Up, ∃ n : Nat, n ≤ 3 ∧
      (dsRun f).2 = (List.range n).map (fun i => (i + 1) * 3000) := by
    intro f
    obtain ⟨n, hn, h⟩ := dsLoop_delays f 3 0 (by omega)
    refine ⟨n, hn, ?_⟩
    show (dsLoop f 3 0).2 = _
    rw [h, hfun]
  have hpair : ∀ (n : Nat),
      List.Pairwise (fun a b => a < b) ((List.range n).map (fun i => (i + 1) * 3000)) := by
    intro n
    rw [List.pairwise_map]
    exact (List.pairwise_lt_range n).imp (fun hab => by omega)
  refine ⟨hgroq, hds, rfl, rfl, ?_⟩
  intro f
  constructor
  · obtain ⟨n, _, h⟩ := hgroq f
    rw [h]; exact hpair n
  · obtain ⟨n, _, h⟩ := hds f
    rw [h]; exact hpair n

end Gateway
